import Mathlib

/-!
Shallow embedding of src/Docs/script.js (class CryptoTradingBot), the
dashboard state synchronizer of the OanderTrader browser client, and
proofs about it.

Modelling conventions: possibly-undefined JS values are Option; JS
truthiness (the empty string, the number 0, null and undefined are
falsy) is applied explicitly at each use site; JS objects used as
string-keyed maps are association lists; Date.now() timestamps are
natural numbers counting milliseconds (Date.now() is non-decreasing, so
the elapsed time read by the uptime tick is a natural number).
-/

namespace OanderTrader

/-- Display pair produced by mapRiskLevel: slot text and CSS class. -/
structure RiskDisplay where
  text : String
  cls : String
deriving DecidableEq

/-- Display triple produced by mapRecommendation. -/
structure RecDisplay where
  text : String
  action : String
  cls : String
deriving DecidableEq

/-- Translation of mapRiskLevel (script.js lines 233-246): a JS switch
on the possibly-undefined risk_level string; undefined matches no case
and falls to the default. -/
def mapRiskLevel (riskLevel : Option String) : RiskDisplay :=
  match riskLevel with
  | some s =>
    if s = "LOW" then ⟨"LOW RISK", "low"⟩
    else if s = "MEDIUM" then ⟨"MEDIUM RISK", "medium"⟩
    else if s = "HIGH" then ⟨"HIGH RISK", "high"⟩
    else if s = "VERY HIGH" then ⟨"VERY HIGH RISK", "very-high"⟩
    else ⟨"ANALYZING", ""⟩
  | none => ⟨"ANALYZING", ""⟩

/-- Model of the JS String.prototype.includes call used by
mapRecommendation: the needle occurs as a contiguous run inside the
haystack character list. -/
def containsSub (needle : List Char) : List Char → Bool
  | [] => needle.isPrefixOf []
  | c :: rest => needle.isPrefixOf (c :: rest) || containsSub needle rest

/-- The expression s.includes(sub) on strings. -/
def jsIncludes (s sub : String) : Bool :=
  containsSub sub.data s.data

/-- Translation of mapRecommendation (script.js lines 248-282); the JS
guard `if (!recommendation)` is true for undefined and for the empty
string. -/
def mapRecommendation (recommendation : Option String) : RecDisplay :=
  match recommendation with
  | none => ⟨"Collecting market data...", "", ""⟩
  | some s =>
    if s = "" then ⟨"Collecting market data...", "", ""⟩
    else if jsIncludes s "STRONG BUY" then ⟨"AI recommends:", "STRONG BUY 🚀", "buy"⟩
    else if jsIncludes s "STRONG SELL" then ⟨"AI recommends:", "STRONG SELL 📉", "sell"⟩
    else if jsIncludes s "DO NOT TRADE" || jsIncludes s "AVOID" then
      ⟨"AI recommends:", "DO NOT TRADE ⚠️", "wait"⟩
    else ⟨"AI is analyzing...", "WAIT FOR SIGNAL", "wait"⟩

/-- Value of one digit character under the given radix, none when the
character is not a digit of that radix. -/
def digitVal (radix : Nat) (c : Char) : Option Nat :=
  if '0' ≤ c ∧ c ≤ '9' then
    if c.toNat - Char.toNat '0' < radix then some (c.toNat - Char.toNat '0') else none
  else if radix = 16 ∧ 'a' ≤ c ∧ c ≤ 'f' then some (c.toNat - Char.toNat 'a' + 10)
  else if radix = 16 ∧ 'A' ≤ c ∧ c ≤ 'F' then some (c.toNat - Char.toNat 'A' + 10)
  else none

/-- Longest prefix of digits of the radix. -/
def takeDigits (radix : Nat) : List Char → List Nat
  | [] => []
  | c :: rest =>
    match digitVal radix c with
    | some v => v :: takeDigits radix rest
    | none => []

/-- Model of the JS parseInt(s) call with no radix argument: skip
leading whitespace, read an optional sign, detect a 0x/0X hex prefix
(radix 16, else 10), take the longest prefix of radix digits; no digits
means NaN, modelled as none. -/
def jsParseInt (s : String) : Option Int :=
  let cs := s.data.dropWhile Char.isWhitespace
  let signAndRest : Int × List Char :=
    match cs with
    | '-' :: rest => (-1, rest)
    | '+' :: rest => (1, rest)
    | _ => (1, cs)
  let radixAndRest : Nat × List Char :=
    match signAndRest.2 with
    | '0' :: c :: rest => if c = 'x' ∨ c = 'X' then (16, rest) else (10, signAndRest.2)
    | _ => (10, signAndRest.2)
  let ds := takeDigits radixAndRest.1 radixAndRest.2
  if ds.isEmpty then none
  else some (signAndRest.1 * ((ds.foldl (fun a d => a * radixAndRest.1 + d) 0 : Nat) : Int))

/-- The confidence-bar pipeline of updateCryptoCard (script.js line
212): parseInt(data.confidence) || 0, where both NaN and 0 are falsy
and resolve to 0. -/
def confidencePct (confidence : String) : Int :=
  match jsParseInt confidence with
  | some n => if n = 0 then 0 else n
  | none => 0

/-- JS o || dflt on a possibly-undefined string: undefined and the
empty string are falsy. -/
def jsOrStr (o : Option String) (dflt : String) : String :=
  match o with
  | some s => if s = "" then dflt else s
  | none => dflt

/-- Rendered text of one activity-log entry (script.js line 324). -/
def logEntryText (timestamp message : String) : String :=
  timestamp ++ " - " ++ message

/-- Translation of addLogEntry (script.js lines 318-333): the rendered
entry is prepended and the container is truncated from the tail until at
most 20 entries remain, which is exactly taking the newest 20. -/
def addLogEntry (timestamp message : String) (log : List String) : List String :=
  List.take 20 (logEntryText timestamp message :: log)

/-- Number.prototype.toString on a Nat followed by padStart(2, "0"). -/
def pad2 (s : String) : String :=
  if s.length < 2 then String.mk (List.replicate (2 - s.length) '0') ++ s else s

/-- Elapsed-time formatting of the uptime tick (script.js lines
338-346); uptime is the elapsed time in milliseconds. -/
def formatUptime (uptime : Nat) : String :=
  let hours := uptime / (1000 * 60 * 60)
  let minutes := uptime % (1000 * 60 * 60) / (1000 * 60)
  let seconds := uptime % (1000 * 60) / 1000
  pad2 (Nat.repr hours) ++ ":" ++ pad2 (Nat.repr minutes) ++ ":" ++ pad2 (Nat.repr seconds)

/-- ActiveTrade payload fields read by the dashboard; every field may be
absent. -/
structure ActiveTrade where
  risk_level : Option String
  confidence : Option String
  recommendation : Option String
deriving DecidableEq

/-- Per-instrument server payload. JS numbers are modelled as rationals;
no claim evaluates the price arithmetic. -/
structure InstrumentState where
  price : Option Rat
  active_trade : Option ActiveTrade
deriving DecidableEq

/-- One server snapshot; both top-level fields may be absent. -/
structure Snapshot where
  bot_running : Option Bool
  instruments : Option (List (String × InstrumentState))
deriving DecidableEq

/-- One crypto-card display surface: the DOM slots written by
updateCryptoCard. -/
structure CardView where
  priceText : String
  risk : RiskDisplay
  confidenceText : String
  confidenceBarPct : Int
  recomm : RecDisplay
deriving DecidableEq

/-- The data object passed to updateCryptoCard. -/
structure CardData where
  price : String
  risk : RiskDisplay
  confidence : String
  recomm : RecDisplay

/-- Translation of updateCryptoCard (script.js lines 189-231): writes
the card slots; the price slot is skipped for the literal sentinel
"Multiple Pairs". -/
def updateCryptoCard (card : CardView) (d : CardData) : CardView :=
  { priceText := if d.price = "Multiple Pairs" then card.priceText else "$" ++ d.price,
    risk := d.risk,
    confidenceText := d.confidence,
    confidenceBarPct := confidencePct d.confidence,
    recomm := d.recomm }

/-- Model of Number.prototype.toFixed(0): round to the nearest integer,
ties to the larger value. JS numbers are binary floats; no claim
evaluates this path, and spec section 9 marks the whole BTC price
formula as a presentation hack. -/
def toFixed0 (x : Rat) : String :=
  (Rat.floor (x + 1 / 2)).repr

/-- Price string of the BTC card (script.js line 173): a falsy price
(absent or zero) renders as "0", otherwise price * 50000 rounded. -/
def btcPriceText (price : Option Rat) : String :=
  match price with
  | some p => if p = 0 then "0" else toFixed0 (p * 50000)
  | none => "0"

/-- The JS fallback instruments[id] || \x7b\x7d : a missing key behaves
as an object with every field undefined. -/
def emptyInstrument : InstrumentState := ⟨none, none⟩

/-- Map access with the empty-object fallback. -/
def lookupInstrument (key : String) (instruments : List (String × InstrumentState)) :
    InstrumentState :=
  (instruments.lookup key).getD emptyInstrument

/-- The BTC card data built by updateCryptoCards (script.js 171-177);
optional chaining active_trade?.f is Option.bind. -/
def btcCardData (inst : InstrumentState) : CardData :=
  { price := btcPriceText inst.price,
    risk := mapRiskLevel (inst.active_trade.bind (fun t => t.risk_level)),
    confidence := jsOrStr (inst.active_trade.bind (fun t => t.confidence)) "0%",
    recomm := mapRecommendation (inst.active_trade.bind (fun t => t.recommendation)) }

/-- The altcoins card data (script.js lines 180-186). -/
def altCardData (inst : InstrumentState) : CardData :=
  { price := "Multiple Pairs",
    risk := mapRiskLevel (inst.active_trade.bind (fun t => t.risk_level)),
    confidence := jsOrStr (inst.active_trade.bind (fun t => t.confidence)) "0%",
    recomm := mapRecommendation (inst.active_trade.bind (fun t => t.recommendation)) }

/-- The mutable fields of the CryptoTradingBot instance together with
the DOM display slots its methods write; socketPresent models a
non-null this.socket. The unused this.successRate field is omitted: the
code writes it once in the constructor and never reads it. -/
structure BotState where
  isConnected : Bool
  socketPresent : Bool
  botRunning : Bool
  instruments : List (String × InstrumentState)
  signalsToday : Nat
  startTime : Option Nat
  connStatusText : String
  connStatusCls : String
  indicatorText : String
  indicatorStatus : String
  startBtnDisabled : Bool
  stopBtnDisabled : Bool
  btcCard : CardView
  altCard : CardView
  marketStatusText : String
  signalsText : String
  successRateText : String
  uptimeText : String
  log : List String

/-- Translation of updateBotControls (script.js lines 109-126); the
opacity styles mirror the disabled flags and are not modelled
separately. -/
def updateBotControls (st : BotState) : BotState :=
  if st.botRunning then { st with startBtnDisabled := true, stopBtnDisabled := false }
  else { st with startBtnDisabled := false, stopBtnDisabled := true }

/-- Truthiness of inst.active_trade && inst.active_trade.recommendation
(script.js line 295): the trade object must be present and the
recommendation string present and non-empty. -/
def hasActiveRecommendation (inst : InstrumentState) : Bool :=
  match inst.active_trade with
  | some t =>
    match t.recommendation with
    | some r => r != ""
    | none => false
  | none => false

/-- The activeSignals count of updateStats (script.js lines 293-298). -/
def activeSignals (instruments : List (String × InstrumentState)) : Nat :=
  (instruments.map Prod.snd).countP hasActiveRecommendation

/-- Translation of updateStats (script.js lines 284-316). -/
def updateStats (d : Snapshot) (st : BotState) : BotState :=
  let st1 := { st with marketStatusText := if st.botRunning then "🟢 ACTIVE" else "🔴 INACTIVE" }
  let st2 :=
    match d.instruments with
    | some insts =>
      if activeSignals insts > st1.signalsToday then { st1 with signalsToday := activeSignals insts }
      else st1
    | none => st1
  let rate := if st2.signalsToday > 0 then min 95 (75 + st2.signalsToday * 5) else 0
  { st2 with
    signalsText := Nat.repr st2.signalsToday,
    successRateText := Nat.repr rate ++ "%" }

/-- Translation of updateCryptoCards (script.js lines 169-187). -/
def updateCryptoCards (insts : List (String × InstrumentState)) (st : BotState) : BotState :=
  let st1 := { st with
    btcCard := updateCryptoCard st.btcCard (btcCardData (lookupInstrument "EUR_USD" insts)) }
  { st1 with
    altCard := updateCryptoCard st1.altCard (altCardData (lookupInstrument "USD_JPY" insts)) }

/-- Translation of updateDashboard (script.js lines 161-167): a snapshot
without an instruments field (undefined is falsy; an empty object is
truthy) changes nothing at all. -/
def updateDashboard (d : Snapshot) (st : BotState) : BotState :=
  match d.instruments with
  | some insts => updateStats d (updateCryptoCards insts { st with instruments := insts })
  | none => st

/-- Translation of startBot (script.js lines 93-100); the second
component lists the outbound socket emissions of the call. -/
def startBot (ts : String) (st : BotState) : BotState × List String :=
  if st.isConnected && st.socketPresent then
    ({ st with log := addLogEntry ts "🔄 Starting trading bot..." st.log }, ["start_bot"])
  else
    ({ st with log := addLogEntry ts "❌ Cannot start bot - No connection to server" st.log }, [])

/-- Translation of stopBot (script.js lines 102-107): silently does
nothing when disconnected. -/
def stopBot (ts : String) (st : BotState) : BotState × List String :=
  if st.isConnected && st.socketPresent then
    ({ st with log := addLogEntry ts "🔄 Stopping trading bot..." st.log }, ["stop_bot"])
  else (st, [])

/-- Truthiness of this.startTime in the uptime tick (script.js line
337): null and the timestamp 0 are falsy. -/
def startTimeTruthy (o : Option Nat) : Bool :=
  match o with
  | some t => t != 0
  | none => false

/-- External stimuli the handlers of setupSocketEvents, the two button
listeners, the bootstrap fetch response and the 1-second interval react
to. Times are Date.now() milliseconds; ts strings are the
toLocaleTimeString values used for log entries. -/
inductive Event where
  | connect
  | disconnect
  | statusUpdate (d : Snapshot)
  | botStarted (now : Nat) (ts : String)
  | botStopped (ts : String)
  | initialStatus (d : Snapshot) (now : Nat)
  | clickStart (ts : String)
  | clickStop (ts : String)
  | tick (now : Nat)

/-- One run-to-completion handler dispatch; the second component lists
the outbound socket emissions of the handler. -/
def step (st : BotState) : Event → BotState × List String
  | .connect =>
    ({ st with
      isConnected := true,
      connStatusText := "🟢 Connected", connStatusCls := "connected" }, [])
  | .disconnect =>
    ({ st with
      isConnected := false,
      connStatusText := "🔴 Disconnected", connStatusCls := "error" }, [])
  | .statusUpdate d => (updateDashboard d st, [])
  | .botStarted now ts =>
    let st1 := updateBotControls { st with botRunning := true, startTime := some now }
    ({ st1 with
      indicatorText := "🚀 Bot Active - Scanning Markets...",
      indicatorStatus := "active",
      log := addLogEntry ts "🚀 Trading bot started - Analyzing crypto markets" st1.log }, [])
  | .botStopped ts =>
    let st1 := updateBotControls { st with botRunning := false, startTime := none }
    ({ st1 with
      indicatorText := "⏸️ Bot Stopped", indicatorStatus := "stopped",
      log := addLogEntry ts "⏸️ Trading bot stopped" st1.log }, [])
  | .initialStatus d now =>
    let st1 :=
      if d.bot_running.getD false then
        { st with
          botRunning := true, startTime := some now,
          indicatorText := "🚀 Bot Active - Scanning Markets...", indicatorStatus := "active" }
      else st
    (updateDashboard d (updateBotControls st1), [])
  | .clickStart ts => startBot ts st
  | .clickStop ts => stopBot ts st
  | .tick now =>
    (if startTimeTruthy st.startTime then
      { st with uptimeText := formatUptime (now - st.startTime.getD 0) }
     else st, [])

/-- The state right after the constructor ran with a successful io()
call: no connection yet, bot not running, empty instrument map and log;
display slots start from initial markup content, not part of this
repository, modelled as empty strings (no claim depends on them). -/
def initState : BotState :=
  { isConnected := false, socketPresent := true, botRunning := false,
    instruments := [], signalsToday := 0, startTime := none,
    connStatusText := "", connStatusCls := "", indicatorText := "",
    indicatorStatus := "", startBtnDisabled := false, stopBtnDisabled := false,
    btcCard := ⟨"", ⟨"", ""⟩, "", 0, ⟨"", "", ""⟩⟩,
    altCard := ⟨"", ⟨"", ""⟩, "", 0, ⟨"", "", ""⟩⟩,
    marketStatusText := "", signalsText := "", successRateText := "",
    uptimeText := "", log := [] }

/-- Fold a sequence of events through step, discarding the emissions. -/
def runEvents (st : BotState) (evs : List Event) : BotState :=
  evs.foldl (fun s e => (step s e).1) st

/-- ViewModel invariant of spec section 3: start_time is non-null
exactly when bot_running is true. -/
def StartTimeInv (st : BotState) : Prop :=
  st.startTime.isSome = st.botRunning


/-- Claim C1 counterexample: the input VERY_HIGH (the underscore
spelling the claim uses) maps to the neutral pair, not to the very-high
pair, because the switch in mapRiskLevel matches the space-separated
spelling VERY HIGH; and VERY HIGH, an input outside the list of
four, does not map to the neutral pair either. -/
theorem c1_underscore_counterexample :
    mapRiskLevel (some "VERY_HIGH") = ⟨"ANALYZING", ""⟩ ∧
    mapRiskLevel (some "VERY_HIGH") ≠ ⟨"VERY HIGH RISK", "very-high"⟩ ∧
    mapRiskLevel (some "VERY HIGH") ≠ ⟨"ANALYZING", ""⟩ := by
  refine ⟨by decide, by decide, by decide⟩

/-- Claim C1 (amended): mapRiskLevel is total; the recognized inputs
are LOW, MEDIUM, HIGH and the space-separated VERY HIGH, each mapping
to its fixed label/class pair, and every other input, absent included,
maps to the neutral ANALYZING pair with an empty class. -/
theorem c1_mapRiskLevel_total (s : String)
    (h1 : s ≠ "LOW") (h2 : s ≠ "MEDIUM") (h3 : s ≠ "HIGH") (h4 : s ≠ "VERY HIGH") :
    mapRiskLevel (some "LOW") = ⟨"LOW RISK", "low"⟩ ∧
    mapRiskLevel (some "MEDIUM") = ⟨"MEDIUM RISK", "medium"⟩ ∧
    mapRiskLevel (some "HIGH") = ⟨"HIGH RISK", "high"⟩ ∧
    mapRiskLevel (some "VERY HIGH") = ⟨"VERY HIGH RISK", "very-high"⟩ ∧
    mapRiskLevel none = ⟨"ANALYZING", ""⟩ ∧
    mapRiskLevel (some s) = ⟨"ANALYZING", ""⟩ := by
  refine ⟨by decide, by decide, by decide, by decide, by decide, ?_⟩
  simp [mapRiskLevel, h1, h2, h3, h4]

/-- Witness for c1_mapRiskLevel_total at the input VERY_HIGH. -/
theorem c1_mapRiskLevel_total_witness :
    ("VERY_HIGH" : String) ≠ "LOW" ∧
    mapRiskLevel (some "VERY_HIGH") = ⟨"ANALYZING", ""⟩ :=
  ⟨by decide, (c1_mapRiskLevel_total "VERY_HIGH" (by decide) (by decide) (by decide)
    (by decide)).2.2.2.2.2⟩

/-- Claim C2 counterexample: for the recommendation string STRONG BUY
itself the returned action is not the string STRONG BUY: the code
suffixes a rocket emoji to the action label. -/
theorem c2_action_counterexample :
    (mapRecommendation (some "STRONG BUY")).action ≠ "STRONG BUY" ∧
    (mapRecommendation (some "STRONG BUY")).action = "STRONG BUY 🚀" ∧
    (mapRecommendation (some "STRONG BUY")).cls = "buy" := by
  refine ⟨by decide, by decide, by decide⟩

/-- Claim C2 (amended): classification is priority-ordered substring
matching in the fixed order STRONG BUY, then STRONG SELL, then DO NOT
TRADE or AVOID, then the fallback, first match winning; every string
containing STRONG BUY, whatever else it contains, gets class buy and
the emoji-suffixed action label STRONG BUY 🚀. -/
theorem c2_mapRecommendation_priority (s t u v : String)
    (hs : jsIncludes s "STRONG BUY" = true)
    (ht1 : jsIncludes t "STRONG BUY" = false) (ht2 : jsIncludes t "STRONG SELL" = true)
    (hu1 : jsIncludes u "STRONG BUY" = false) (hu2 : jsIncludes u "STRONG SELL" = false)
    (hu3 : (jsIncludes u "DO NOT TRADE" || jsIncludes u "AVOID") = true)
    (hv0 : v ≠ "")
    (hv1 : jsIncludes v "STRONG BUY" = false) (hv2 : jsIncludes v "STRONG SELL" = false)
    (hv3 : (jsIncludes v "DO NOT TRADE" || jsIncludes v "AVOID") = false) :
    mapRecommendation (some s) = ⟨"AI recommends:", "STRONG BUY 🚀", "buy"⟩ ∧
    mapRecommendation (some t) = ⟨"AI recommends:", "STRONG SELL 📉", "sell"⟩ ∧
    mapRecommendation (some u) = ⟨"AI recommends:", "DO NOT TRADE ⚠️", "wait"⟩ ∧
    mapRecommendation (some v) = ⟨"AI is analyzing...", "WAIT FOR SIGNAL", "wait"⟩ := by
  have hsne : s ≠ "" := by intro he; subst he; revert hs; decide
  have htne : t ≠ "" := by intro he; subst he; revert ht2; decide
  have hune : u ≠ "" := by intro he; subst he; revert hu3; decide
  refine ⟨?_, ?_, ?_, ?_⟩
  · simp [mapRecommendation, hsne, hs]
  · simp [mapRecommendation, htne, ht1, ht2]
  · simp [mapRecommendation, hune, hu1, hu2, hu3]
  · simp [mapRecommendation, hv0, hv1, hv2, hv3]

/-- Witness for c2_mapRecommendation_priority on concrete strings; the
first input contains both STRONG BUY and a lower-priority match. -/
theorem c2_mapRecommendation_priority_witness :
    jsIncludes "AVOID? no: STRONG BUY" "STRONG BUY" = true ∧
    mapRecommendation (some "AVOID? no: STRONG BUY") =
      ⟨"AI recommends:", "STRONG BUY 🚀", "buy"⟩ :=
  ⟨by decide, (c2_mapRecommendation_priority "AVOID? no: STRONG BUY" "oh STRONG SELL" "AVOID it"
    "hold" (by decide) (by decide) (by decide) (by decide) (by decide) (by decide) (by decide)
    (by decide) (by decide) (by decide)).1⟩

/-- Claim C3: a snapshot whose instruments field is absent leaves the
whole view state, displayed per-instrument price, risk, confidence and
recommendation included, exactly as it was. -/
theorem c3_updateDashboard_frame (d : Snapshot) (st : BotState)
    (h : d.instruments = none) : updateDashboard d st = st := by
  simp [updateDashboard, h]

/-- Witness for c3_updateDashboard_frame on a snapshot that carries a
bot_running field but no instruments field. -/
theorem c3_updateDashboard_frame_witness :
    (Snapshot.mk (some true) none).instruments = none ∧
    updateDashboard (Snapshot.mk (some true) none) initState = initState :=
  ⟨rfl, c3_updateDashboard_frame (Snapshot.mk (some true) none) initState rfl⟩

/-- Claim C4: confidence parsing is total (a Lean function on all
strings) with no error path: the string 82% parses to 82, the empty
string parses to 0, and an undefined confidence, which reaches the
parser as the fallback 0% of updateCryptoCards, parses to 0. -/
theorem c4_confidence_parsing :
    confidencePct "82%" = 82 ∧
    confidencePct "" = 0 ∧
    jsOrStr none "0%" = "0%" ∧
    confidencePct (jsOrStr none "0%") = 0 := by
  refine ⟨by decide, by decide, by decide, by decide⟩


/-- Taking 20 of a list whose tail past an append was already truncated
to 20 equals taking 20 of the untruncated append. -/
theorem take20_append_take20 (xs ys : List String) :
    List.take 20 (xs ++ List.take 20 ys) = List.take 20 (xs ++ ys) := by
  rw [List.take_append_eq_append_take, List.take_append_eq_append_take, List.take_take,
    Nat.min_eq_left (by omega)]

/-- Closed form of repeatedly appending to the activity log: the result
is the newest 20 of all entries ever present, newest first. -/
theorem foldl_addLogEntry (entries : List (String × String)) (log : List String)
    (hlog : List.take 20 log = log) :
    entries.foldl (fun l p => addLogEntry p.1 p.2 l) log =
      List.take 20 ((entries.map (fun p => logEntryText p.1 p.2)).reverse ++ log) := by
  induction entries generalizing log with
  | nil => simpa using hlog.symm
  | cons e es ih =>
    have h1 : List.take 20 (addLogEntry e.1 e.2 log) = addLogEntry e.1 e.2 log := by
      simp [addLogEntry, List.take_take]
    rw [List.foldl_cons, ih (addLogEntry e.1 e.2 log) h1, addLogEntry, take20_append_take20]
    simp [List.append_assoc]

/-- Claim C5: the log holds at most 20 entries after any append; an
append leaves the surviving old entries untouched (the new tail is the
19-entry prefix of the old log); and 25 appends into the empty log
leave exactly 20 entries, the most recently appended first and the 5
oldest evicted: the result is the newest 20 of the 25 in reverse
order of arrival. -/
theorem c5_log_bound (ts msg : String) (log : List String)
    (entries : List (String × String)) (h25 : entries.length = 25) :
    (addLogEntry ts msg log).length ≤ 20 ∧
    (addLogEntry ts msg log).tail = log.take 19 ∧
    (addLogEntry ts msg log).tail ++ log.drop 19 = log ∧
    (entries.foldl (fun l p => addLogEntry p.1 p.2 l) []).length = 20 ∧
    entries.foldl (fun l p => addLogEntry p.1 p.2 l) [] =
      List.take 20 (entries.map (fun p => logEntryText p.1 p.2)).reverse ∧
    (entries.foldl (fun l p => addLogEntry p.1 p.2 l) []).head? =
      (entries.map (fun p => logEntryText p.1 p.2)).getLast? := by
  have hfold : entries.foldl (fun l p => addLogEntry p.1 p.2 l) [] =
      List.take 20 (entries.map (fun p => logEntryText p.1 p.2)).reverse := by
    simpa using foldl_addLogEntry entries [] rfl
  have htail : (addLogEntry ts msg log).tail = log.take 19 := by
    simp [addLogEntry]
  refine ⟨?_, htail, ?_, ?_, hfold, ?_⟩
  · simp [addLogEntry]
  · rw [htail, List.take_append_drop]
  · rw [hfold]
    simp [h25]
  · rw [hfold]
    have hne : (entries.map (fun p => logEntryText p.1 p.2)).reverse ≠ [] := by
      simp only [ne_eq, List.reverse_eq_nil_iff, List.map_eq_nil_iff]
      intro he
      rw [he] at h25
      simp at h25
    cases hrev : (entries.map (fun p => logEntryText p.1 p.2)).reverse with
    | nil => exact absurd hrev hne
    | cons a rest =>
      have : (entries.map (fun p => logEntryText p.1 p.2)).getLast? = some a := by
        rw [← List.head?_reverse, hrev]
        rfl
      rw [this]
      rfl

/-- Witness for c5_log_bound : 25 concrete appends leave a 20-entry
log headed by the newest entry. -/
theorem c5_log_bound_witness :
    ((List.range 25).map (fun i => ("t", Nat.repr i))).length = 25 ∧
    (((List.range 25).map (fun i => ("t", Nat.repr i))).foldl
      (fun l p => addLogEntry p.1 p.2 l) []).length = 20 :=
  ⟨by decide, (c5_log_bound "t" "m" [] ((List.range 25).map (fun i => ("t", Nat.repr i)))
    (by decide)).2.2.2.1⟩


/-- Claim C6: command dispatch is asymmetric on disconnection. While
disconnected, a start click sends nothing and adds exactly one refusal
entry at the head of the log (the surviving entries just shift), while
a stop click sends nothing, logs nothing and leaves the state
untouched; while connected, each click emits exactly its one outbound
command. -/
theorem c6_dispatch_asymmetry (st : BotState) (ts : String) :
    (st.isConnected = false →
      (startBot ts st).2 = [] ∧
      (startBot ts st).1.log.head? =
        some (logEntryText ts "❌ Cannot start bot - No connection to server") ∧
      (startBot ts st).1.log.tail = st.log.take 19 ∧
      stopBot ts st = (st, [])) ∧
    (st.isConnected = true → st.socketPresent = true →
      (startBot ts st).2 = ["start_bot"] ∧ (stopBot ts st).2 = ["stop_bot"]) := by
  constructor
  · intro h
    refine ⟨?_, ?_, ?_, ?_⟩ <;> simp [startBot, stopBot, h, addLogEntry]
  · intro h1 h2
    constructor <;> simp [startBot, stopBot, h1, h2]

/-- Witness for c6_dispatch_asymmetry : a disconnected start from the
initial state sends nothing; a connected stop sends the stop command. -/
theorem c6_dispatch_asymmetry_witness :
    initState.isConnected = false ∧
    (startBot "12:00:00" initState).2 = [] ∧
    (stopBot "12:00:00" { initState with isConnected := true }).2 = ["stop_bot"] :=
  ⟨rfl, ((c6_dispatch_asymmetry initState "12:00:00").1 rfl).1,
    ((c6_dispatch_asymmetry { initState with isConnected := true } "12:00:00").2 rfl rfl).2⟩


/-- Updating the crypto cards never touches the signals counter. -/
theorem updateCryptoCards_signalsToday (insts : List (String × InstrumentState))
    (st : BotState) : (updateCryptoCards insts st).signalsToday = st.signalsToday := rfl

/-- Updating the run-control buttons never touches the signals counter. -/
theorem updateBotControls_signalsToday (st : BotState) :
    (updateBotControls st).signalsToday = st.signalsToday := by
  unfold updateBotControls
  split <;> rfl

/-- Value of the signals counter after updateStats on a snapshot that
does carry instruments. -/
theorem updateStats_signalsToday_some (d : Snapshot) (insts : List (String × InstrumentState))
    (st : BotState) (h : d.instruments = some insts) :
    (updateStats d st).signalsToday =
      if activeSignals insts > st.signalsToday then activeSignals insts else st.signalsToday := by
  simp only [updateStats, h]
  split <;> rfl

/-- updateStats without instruments keeps the signals counter. -/
theorem updateStats_signalsToday_none (d : Snapshot) (st : BotState)
    (h : d.instruments = none) : (updateStats d st).signalsToday = st.signalsToday := by
  simp only [updateStats, h]

/-- Value of the signals counter after a whole dashboard update. -/
theorem updateDashboard_signalsToday (d : Snapshot) (insts : List (String × InstrumentState))
    (st : BotState) (h : d.instruments = some insts) :
    (updateDashboard d st).signalsToday =
      if activeSignals insts > st.signalsToday then activeSignals insts else st.signalsToday := by
  simp only [updateDashboard, h]
  rw [updateStats_signalsToday_some d insts _ h, updateCryptoCards_signalsToday]

/-- A dashboard update never lowers the signals counter. -/
theorem updateDashboard_signalsToday_mono (d : Snapshot) (st : BotState) :
    st.signalsToday ≤ (updateDashboard d st).signalsToday := by
  cases h : d.instruments with
  | none => simp [updateDashboard, h]
  | some insts =>
    rw [updateDashboard_signalsToday d insts st h]
    split <;> omega

/-- No handler dispatch lowers the signals counter. -/
theorem step_signalsToday_mono (st : BotState) (e : Event) :
    st.signalsToday ≤ ((step st e).1).signalsToday := by
  cases e with
  | connect => exact Nat.le_refl _
  | disconnect => exact Nat.le_refl _
  | statusUpdate d => exact updateDashboard_signalsToday_mono d st
  | botStarted now ts => exact Nat.le_refl _
  | botStopped ts => exact Nat.le_refl _
  | initialStatus d now =>
    simp only [step]
    refine Nat.le_trans ?_ (updateDashboard_signalsToday_mono d _)
    rw [updateBotControls_signalsToday]
    split <;> exact Nat.le_refl _
  | clickStart ts =>
    simp only [step, startBot]
    split <;> exact Nat.le_refl _
  | clickStop ts =>
    simp only [step, stopBot]
    split <;> exact Nat.le_refl _
  | tick now =>
    simp only [step]
    split <;> exact Nat.le_refl _

/-- The signals counter is monotone along any event sequence. -/
theorem runEvents_signalsToday_mono (evs : List Event) (st : BotState) :
    st.signalsToday ≤ (runEvents st evs).signalsToday := by
  induction evs generalizing st with
  | nil => exact Nat.le_refl _
  | cons e es ih => exact Nat.le_trans (step_signalsToday_mono st e) (ih ((step st e).1))

/-- Claim C7: signals_seen_today is monotonic non-decreasing along
every event sequence, and a snapshot changes it only by raising it to
its active-signal count when that count exceeds the current value. -/
theorem c7_signals_monotone (st : BotState) (evs : List Event) (d : Snapshot)
    (hne : (updateDashboard d st).signalsToday ≠ st.signalsToday) :
    st.signalsToday ≤ (runEvents st evs).signalsToday ∧
    ∃ insts, d.instruments = some insts ∧
      (updateDashboard d st).signalsToday = activeSignals insts ∧
      st.signalsToday < activeSignals insts := by
  refine ⟨runEvents_signalsToday_mono evs st, ?_⟩
  cases h : d.instruments with
  | none =>
    exfalso
    apply hne
    simp [updateDashboard, h]
  | some insts =>
    refine ⟨insts, rfl, ?_⟩
    have key := updateDashboard_signalsToday d insts st h
    by_cases hc : activeSignals insts > st.signalsToday
    · rw [key, if_pos hc]
      exact ⟨rfl, hc⟩
    · exfalso
      apply hne
      rw [key, if_neg hc]

/-- Witness for c7_signals_monotone on a snapshot with one instrument
carrying an active recommendation, applied to the initial state. -/
theorem c7_signals_monotone_witness :
    (updateDashboard
      (Snapshot.mk none (some [("EUR_USD", ⟨none, some ⟨none, none, some "STRONG BUY"⟩⟩)]))
      initState).signalsToday ≠ initState.signalsToday ∧
    initState.signalsToday ≤
      (runEvents initState [Event.statusUpdate
        (Snapshot.mk none (some [("EUR_USD", ⟨none, some ⟨none, none, some "STRONG BUY"⟩⟩)]))
        ]).signalsToday :=
  ⟨by decide,
    (c7_signals_monotone initState
      [Event.statusUpdate
        (Snapshot.mk none (some [("EUR_USD", ⟨none, some ⟨none, none, some "STRONG BUY"⟩⟩)]))]
      (Snapshot.mk none (some [("EUR_USD", ⟨none, some ⟨none, none, some "STRONG BUY"⟩⟩)]))
      (by decide)).1⟩


/-- Claim C8: elapsed time is rendered as HH:MM:SS with every component
zero-padded to two digits and hours unbounded above (100 hours renders
as 100:00:00, three digits), and a tick 3661 seconds after a
bot_started transition at clock time T renders 01:01:01; T is a
Date.now() value, hence strictly positive on any real clock. -/
theorem c8_uptime_rendering (h m s T : Nat) (st : BotState) (ts : String)
    (hm : m < 60) (hs : s < 60) (hT : 0 < T) :
    formatUptime (h * 3600000 + m * 60000 + s * 1000) =
      pad2 (Nat.repr h) ++ ":" ++ pad2 (Nat.repr m) ++ ":" ++ pad2 (Nat.repr s) ∧
    formatUptime 360000000 = "100:00:00" ∧
    (step (step st (Event.botStarted T ts)).1 (Event.tick (T + 3661000))).1.uptimeText =
      "01:01:01" := by
  refine ⟨?_, by decide, ?_⟩
  · have e1 : (h * 3600000 + m * 60000 + s * 1000) / (1000 * 60 * 60) = h := by omega
    have e2 : (h * 3600000 + m * 60000 + s * 1000) % (1000 * 60 * 60) / (1000 * 60) = m := by
      omega
    have e3 : (h * 3600000 + m * 60000 + s * 1000) % (1000 * 60) / 1000 = s := by omega
    simp only [formatUptime]
    rw [e1, e2, e3]
  · have hst : (step st (Event.botStarted T ts)).1.startTime = some T := rfl
    obtain ⟨st1, hgen⟩ : ∃ st1, (step st (Event.botStarted T ts)).1 = st1 := ⟨_, rfl⟩
    rw [hgen] at hst ⊢
    have htr : startTimeTruthy (some T) = true := by
      simp only [startTimeTruthy, bne_iff_ne, ne_eq]
      omega
    have key : (step st1 (Event.tick (T + 3661000))).1.uptimeText = formatUptime 3661000 := by
      simp [step, hst, htr]
    rw [key]
    decide

/-- Witness for c8_uptime_rendering at T = 1000 and one hour, one
minute, one second. -/
theorem c8_uptime_rendering_witness :
    (1 : Nat) < 60 ∧ (0 : Nat) < 1000 ∧
    (step (step initState (Event.botStarted 1000 "t")).1
      (Event.tick (1000 + 3661000))).1.uptimeText = "01:01:01" :=
  ⟨by decide, by decide,
    (c8_uptime_rendering 1 1 1 1000 initState "t" (by decide) (by decide) (by decide)).2.2⟩


/-- updateStats never touches startTime or botRunning. -/
theorem updateStats_startTime (d : Snapshot) (st : BotState) :
    (updateStats d st).startTime = st.startTime ∧
    (updateStats d st).botRunning = st.botRunning := by
  constructor <;>
    (simp only [updateStats]
     cases d.instruments with
     | none => rfl
     | some insts =>
       dsimp only
       split <;> rfl)

/-- updateDashboard never touches startTime or botRunning. -/
theorem updateDashboard_startTime (d : Snapshot) (st : BotState) :
    (updateDashboard d st).startTime = st.startTime ∧
    (updateDashboard d st).botRunning = st.botRunning := by
  unfold updateDashboard
  cases d.instruments with
  | none => exact ⟨rfl, rfl⟩
  | some insts =>
    exact updateStats_startTime d (updateCryptoCards insts { st with instruments := insts })

/-- updateBotControls never touches startTime or botRunning. -/
theorem updateBotControls_startTime (st : BotState) :
    (updateBotControls st).startTime = st.startTime ∧
    (updateBotControls st).botRunning = st.botRunning := by
  unfold updateBotControls
  split <;> exact ⟨rfl, rfl⟩

/-- startTime and botRunning after the bootstrap status response: set
together to running when the response says running, untouched
otherwise. -/
theorem step_initialStatus_fields (d : Snapshot) (now : Nat) (st : BotState) :
    (step st (Event.initialStatus d now)).1.startTime =
      (if d.bot_running.getD false then some now else st.startTime) ∧
    (step st (Event.initialStatus d now)).1.botRunning =
      (if d.bot_running.getD false then true else st.botRunning) := by
  by_cases hb : d.bot_running.getD false = true
  · simp only [step, hb, if_true]
    exact ⟨(updateDashboard_startTime _ _).1.trans (updateBotControls_startTime _).1,
      (updateDashboard_startTime _ _).2.trans (updateBotControls_startTime _).2⟩
  · simp only [step, hb, if_false]
    exact ⟨(updateDashboard_startTime _ _).1.trans (updateBotControls_startTime _).1,
      (updateDashboard_startTime _ _).2.trans (updateBotControls_startTime _).2⟩

/-- Every handler dispatch preserves the start-time invariant. -/
theorem step_startTimeInv (st : BotState) (e : Event) (h : StartTimeInv st) :
    StartTimeInv (step st e).1 := by
  cases e with
  | connect => exact h
  | disconnect => exact h
  | statusUpdate d =>
    have hd := updateDashboard_startTime d st
    unfold StartTimeInv at h ⊢
    rw [show (step st (Event.statusUpdate d)).1 = updateDashboard d st from rfl, hd.1, hd.2]
    exact h
  | botStarted now ts => rfl
  | botStopped ts => rfl
  | initialStatus d now =>
    have hf := step_initialStatus_fields d now st
    unfold StartTimeInv at h ⊢
    rw [hf.1, hf.2]
    split
    · rfl
    · exact h
  | clickStart ts =>
    unfold StartTimeInv at h ⊢
    simp only [step, startBot]
    split <;> exact h
  | clickStop ts =>
    unfold StartTimeInv at h ⊢
    simp only [step, stopBot]
    split <;> exact h
  | tick now =>
    unfold StartTimeInv at h ⊢
    simp only [step]
    split <;> exact h

/-- The start-time invariant holds along every event sequence. -/
theorem runEvents_startTimeInv (evs : List Event) (st : BotState) (h : StartTimeInv st) :
    StartTimeInv (runEvents st evs) := by
  induction evs generalizing st with
  | nil => exact h
  | cons e es ih => exact ih ((step st e).1) (step_startTimeInv st e h)

/-- Claim C9: in every reachable state startTime is non-null exactly
when botRunning is true; whenever the uptime tick reads startTime (its
truthiness guard passes) the bot is running; and a dispatch changes
startTime only by setting it on a transition that ends running or
clearing it on one that ends stopped. -/
theorem c9_startTime_running (evs : List Event) (st : BotState) (e : Event) :
    ((runEvents initState evs).startTime.isSome = (runEvents initState evs).botRunning) ∧
    (startTimeTruthy (runEvents initState evs).startTime = true →
      (runEvents initState evs).botRunning = true) ∧
    ((step st e).1.startTime ≠ st.startTime →
      ((step st e).1.botRunning = true ∧ (step st e).1.startTime.isSome = true) ∨
      ((step st e).1.botRunning = false ∧ (step st e).1.startTime = none)) := by
  have hinv : StartTimeInv (runEvents initState evs) := runEvents_startTimeInv evs initState rfl
  refine ⟨hinv, ?_, ?_⟩
  · intro ht
    rw [← hinv]
    cases hx : (runEvents initState evs).startTime with
    | none =>
      rw [hx] at ht
      exact absurd ht (by simp [startTimeTruthy])
    | some t => rfl
  · intro hch
    cases e with
    | connect => exact absurd rfl hch
    | disconnect => exact absurd rfl hch
    | statusUpdate d => exact absurd (updateDashboard_startTime d st).1 hch
    | botStarted now ts => exact Or.inl ⟨rfl, rfl⟩
    | botStopped ts => exact Or.inr ⟨rfl, rfl⟩
    | initialStatus d now =>
      have hf := step_initialStatus_fields d now st
      by_cases hb : d.bot_running.getD false = true
      · rw [hb, if_pos rfl] at hf
        exact Or.inl ⟨hf.2, by rw [hf.1]; rfl⟩
      · rw [if_neg hb, if_neg hb] at hf
        exact absurd hf.1 hch
    | clickStart ts =>
      exfalso
      apply hch
      simp only [step, startBot]
      split <;> rfl
    | clickStop ts =>
      exfalso
      apply hch
      simp only [step, stopBot]
      split <;> rfl
    | tick now =>
      exfalso
      apply hch
      simp only [step]
      split <;> rfl

/-- Witness for c9_startTime_running : a bot_started transition at time
5 sets startTime, makes the truthiness guard pass, and falls in the
running branch of the transition disjunction. -/
theorem c9_startTime_running_witness :
    (step initState (Event.botStarted 5 "t")).1.startTime ≠ initState.startTime ∧
    startTimeTruthy (runEvents initState [Event.botStarted 5 "t"]).startTime = true ∧
    (runEvents initState [Event.botStarted 5 "t"]).startTime.isSome =
      (runEvents initState [Event.botStarted 5 "t"]).botRunning ∧
    (runEvents initState [Event.botStarted 5 "t"]).botRunning = true ∧
    (((step initState (Event.botStarted 5 "t")).1.botRunning = true ∧
      (step initState (Event.botStarted 5 "t")).1.startTime.isSome = true) ∨
     ((step initState (Event.botStarted 5 "t")).1.botRunning = false ∧
      (step initState (Event.botStarted 5 "t")).1.startTime = none)) :=
  ⟨by decide, by decide,
    (c9_startTime_running [Event.botStarted 5 "t"] initState (Event.botStarted 5 "t")).1,
    (c9_startTime_running [Event.botStarted 5 "t"] initState (Event.botStarted 5 "t")).2.1
      (by decide),
    (c9_startTime_running [Event.botStarted 5 "t"] initState (Event.botStarted 5 "t")).2.2
      (by decide)⟩

/-- Claim C10: a status_update snapshot never changes botRunning, even
when it carries a bot_running field, because updateDashboard ignores
that field entirely; botRunning changes only through the bot_started
and bot_stopped transition events and the one-shot bootstrap
initialStatus response. -/
theorem c10_statusUpdate_botRunning (st : BotState) (d : Snapshot) (e : Event)
    (hch : (step st e).1.botRunning ≠ st.botRunning) :
    (step st (Event.statusUpdate d)).1.botRunning = st.botRunning ∧
    (updateDashboard d st).botRunning = st.botRunning ∧
    ((∃ now ts, e = Event.botStarted now ts) ∨ (∃ ts, e = Event.botStopped ts) ∨
      (∃ d2 now, e = Event.initialStatus d2 now)) := by
  refine ⟨(updateDashboard_startTime d st).2, (updateDashboard_startTime d st).2, ?_⟩
  cases e with
  | connect => exact absurd rfl hch
  | disconnect => exact absurd rfl hch
  | statusUpdate d2 => exact absurd (updateDashboard_startTime d2 st).2 hch
  | botStarted now ts => exact Or.inl ⟨now, ts, rfl⟩
  | botStopped ts => exact Or.inr (Or.inl ⟨ts, rfl⟩)
  | initialStatus d2 now => exact Or.inr (Or.inr ⟨d2, now, rfl⟩)
  | clickStart ts =>
    exfalso
    apply hch
    simp only [step, startBot]
    split <;> rfl
  | clickStop ts =>
    exfalso
    apply hch
    simp only [step, stopBot]
    split <;> rfl
  | tick now =>
    exfalso
    apply hch
    simp only [step]
    split <;> rfl

/-- Witness for c10_statusUpdate_botRunning : a snapshot that carries
bot_running true and an (empty) instruments map leaves botRunning of
the initial state untouched, while a bot_started event does change it. -/
theorem c10_statusUpdate_botRunning_witness :
    (step initState (Event.botStarted 5 "t")).1.botRunning ≠ initState.botRunning ∧
    (step initState
      (Event.statusUpdate (Snapshot.mk (some true) (some [])))).1.botRunning =
      initState.botRunning :=
  ⟨by decide,
    (c10_statusUpdate_botRunning initState (Snapshot.mk (some true) (some []))
      (Event.botStarted 5 "t") (by decide)).1⟩

end OanderTrader
